import Mathlib

/-!
Verification of the datadog-ci command sources against their specification.

The development shallowly embeds two commands:

* `synthetics run-tests` (src/commands/synthetics/run-test.ts): test
  selection, optional tunnel lifecycle, trigger submission, result polling,
  outcome evaluation and exit status.
* `dependencies upload` (src/commands/dependencies/upload.ts): input
  validation, file check, retried upload with a non-retryable status
  allowlist, and exit codes.

External effects (network calls, the tunnel process, the file system) are
modelled as explicit inputs describing the outcome of each call; the
embedded functions are the pure control flow of the TypeScript source.
-/

/- ### Data model (src/commands/synthetics/interfaces.ts) -/

/-- `ExecutionRule` enum from the synthetics interfaces. -/
inductive ExecutionRule where
  | BLOCKING
  | NON_BLOCKING
  | SKIPPED
deriving DecidableEq, Repr

/-- The `ci` block of a test options object: `{ executionRule?: ExecutionRule }`. -/
structure CIOptions where
  executionRule : Option ExecutionRule
deriving DecidableEq, Repr

/-- The fields of `Test.options` the run-tests command reads.  The TypeScript
interface carries more fields (device ids, retry policy, timings); they are
never inspected by the embedded control flow and are omitted. -/
structure TestOptions where
  ci : Option CIOptions
deriving DecidableEq, Repr

/-- The fields of a canonical `Test` the run-tests command reads. -/
structure Test where
  name : String
  public_id : String
  options : TestOptions
deriving DecidableEq, Repr

/-- The fields of a `Result` the embedded code reads: `passed`, the
`eventType` completion marker, and the optional `error` string. -/
structure SynthResult where
  passed : Bool
  eventType : String
  error : Option String
deriving DecidableEq, Repr

/-- `PollResult { dc_id, result, resultID }` from the interfaces file. -/
structure PollResult where
  dc_id : Nat
  result : SynthResult
  resultID : String
deriving DecidableEq, Repr

/-- `TriggerResult { device, location, public_id, result_id }`: one
(test, location, device) execution instance created by a trigger call. -/
structure TriggerResult where
  device : String
  location : Nat
  public_id : String
  result_id : String
deriving DecidableEq, Repr

/-- `ConfigOverride`: per-test override of execution parameters.  Absent
JSON keys are `none`.  Header and variable maps are association lists.
The source field `variables` is embedded as `variableOverrides` because the
word is reserved in Lean. -/
structure ConfigOverride where
  allowInsecureCertificates : Option Bool := none
  basicAuth : Option (String × String) := none
  deviceIds : Option (List String) := none
  followRedirects : Option Bool := none
  headers : Option (List (String × String)) := none
  locations : Option (List String) := none
  skip : Option Bool := none
  startUrl : Option String := none
  variableOverrides : Option (List (String × String)) := none
deriving DecidableEq, Repr

/-- `TriggerConfig { suite, config, id }`: one test selected to run. -/
structure TriggerConfig where
  suite : String
  config : ConfigOverride
  id : String
deriving DecidableEq, Repr

/-- One entry of a suite file: `{ config?: Config, id: string }`. -/
structure SuiteTest where
  id : String
  config : Option ConfigOverride
deriving DecidableEq, Repr

/-- A discovered suite file: its name and its `content.tests` array, which a
malformed file may omit (`none`). -/
structure Suite where
  name : String
  tests : Option (List SuiteTest)
deriving DecidableEq, Repr

/-- Run-wide counters accumulated by the orchestrator. -/
structure Summary where
  passed : Nat
  failed : Nat
  skipped : Nat
deriving DecidableEq, Repr

/- ### dependencies upload (src/commands/dependencies/upload.ts) -/

/-- `const errorCodesNoRetry = [400, 403, 413]` (upload.ts line 26). -/
def errorCodesNoRetry : List Nat := [400, 403, 413]

/-- The observable outcome of one `api.uploadDependencies` attempt:
success, an axios error carrying an HTTP response status, or an error
without a response object. -/
inductive AttemptOutcome where
  | success
  | httpError (status : Nat)
  | plainError
deriving DecidableEq, Repr

/-- Resolution state of the promise wrapping the retry loop: it either
resolved, or rejected with a final error. -/
inductive RetryOutcome where
  | resolved
  | rejected (e : AttemptOutcome)
deriving DecidableEq, Repr

/-- The retry loop of `UploadCommand.uploadDependencies`, built on the
`async-retry` package with `retries: 5`.  Per the documented contract of
`async-retry`, `retries` is the maximum number of RETRIES, so the body runs
at most `retries + 1` times.  `retriesLeft` is the remaining retry budget
and `i` the 0-based index of the current attempt; `outcomes i` is the
result of the i-th attempt.  An error with a status in `errorCodesNoRetry`,
or without a response, is passed to `bail` and ends the loop at once; other
HTTP errors are rethrown so the library retries them while budget remains.
Returns the number of attempts executed (= api calls made) and the final
outcome. -/
def runRetry (outcomes : Nat → AttemptOutcome) :
    Nat → Nat → Nat × RetryOutcome
  | 0, i =>
    match outcomes i with
    | .success => (1, .resolved)
    | .plainError => (1, .rejected .plainError)
    | .httpError s => (1, .rejected (.httpError s))
  | n + 1, i =>
    match outcomes i with
    | .success => (1, .resolved)
    | .plainError => (1, .rejected .plainError)
    | .httpError s =>
      if errorCodesNoRetry.contains s then
        (1, .rejected (.httpError s))
      else
        let r := runRetry outcomes n (i + 1)
        (r.1 + 1, r.2)

/-- Observable result of `UploadCommand.uploadDependencies`: how many
`api.uploadDependencies` calls were made, whether the wrapped retry
resolved or rejected, and which failure message was rendered
(`renderFailedUploadBecauseOf403` exactly when the final error carries an
HTTP 403 response, `renderFailedUpload` for any other final error). -/
structure UploadRun where
  apiCalls : Nat
  outcome : RetryOutcome
  authMessage : Bool
  genericFailMessage : Bool
deriving DecidableEq, Repr

/-- `UploadCommand.uploadDependencies` (upload.ts lines 143-189): in dry-run
mode the attempt body returns before any api call, so the retry resolves on
the first attempt with zero calls; otherwise the retry loop runs with a
budget of 5 retries, and on final rejection the 403-specific or generic
failure message is written before the error is rethrown. -/
def uploadDependencies (dryRun : Bool) (outcomes : Nat → AttemptOutcome) : UploadRun :=
  if dryRun then
    { apiCalls := 0, outcome := .resolved, authMessage := false, genericFailMessage := false }
  else
    let r := runRetry outcomes 5 0
    match r.2 with
    | .resolved => { apiCalls := r.1, outcome := r.2, authMessage := false, genericFailMessage := false }
    | .rejected e =>
      { apiCalls := r.1, outcome := r.2,
        authMessage := e == .httpError 403,
        genericFailMessage := !(e == .httpError 403) }

/-- `private static INVALID_INPUT_EXIT_CODE = 1`. -/
def INVALID_INPUT_EXIT_CODE : Nat := 1

/-- `private static MISSING_FILE_EXIT_CODE = 2`. -/
def MISSING_FILE_EXIT_CODE : Nat := 2

/-- `private static UPLOAD_ERROR_EXIT_CODE = 3`. -/
def UPLOAD_ERROR_EXIT_CODE : Nat := 3

/-- `public static SUPPORTED_SOURCES`, whose single entry is `snyk`. -/
def SUPPORTED_SOURCES : List String := ["snyk"]

/-- Inputs of one `dependencies upload` run: the CLI options and environment
variables read by `execute`, whether the dependencies file exists, and the
outcome of each upload attempt. -/
structure UploadEnv where
  source : Option String
  service : Option String
  appKey : Option String
  apiKey : Option String
  fileExists : Bool
  dryRun : Bool
  outcomes : Nat → AttemptOutcome

/-- Observable result of `UploadCommand.execute`: the exit code (a normal
completion returns `undefined`, which the CLI maps to 0), the number of
`api.uploadDependencies` calls, and whether the 403 message was shown. -/
structure UploadExecOut where
  exit : Nat
  apiCalls : Nat
  authMessage : Bool
deriving DecidableEq, Repr

/-- `UploadCommand.execute` (upload.ts lines 58-141): validation order is
`--source` present, `--source` supported, `--service` present,
`DATADOG_APP_KEY` present, `DATADOG_API_KEY` present, then the file
existence check, then the upload; a rejection of `uploadDependencies` is
caught and mapped to `UPLOAD_ERROR_EXIT_CODE`. -/
def uploadExecute (env : UploadEnv) : UploadExecOut :=
  match env.source with
  | none => { exit := INVALID_INPUT_EXIT_CODE, apiCalls := 0, authMessage := false }
  | some src =>
    if !SUPPORTED_SOURCES.contains src then
      { exit := INVALID_INPUT_EXIT_CODE, apiCalls := 0, authMessage := false }
    else
      match env.service with
      | none => { exit := INVALID_INPUT_EXIT_CODE, apiCalls := 0, authMessage := false }
      | some _ =>
        if env.appKey.isNone then
          { exit := INVALID_INPUT_EXIT_CODE, apiCalls := 0, authMessage := false }
        else if env.apiKey.isNone then
          { exit := INVALID_INPUT_EXIT_CODE, apiCalls := 0, authMessage := false }
        else if !env.fileExists then
          { exit := MISSING_FILE_EXIT_CODE, apiCalls := 0, authMessage := false }
        else
          let r := uploadDependencies env.dryRun env.outcomes
          match r.outcome with
          | .resolved => { exit := 0, apiCalls := r.apiCalls, authMessage := false }
          | .rejected _ =>
            { exit := UPLOAD_ERROR_EXIT_CODE, apiCalls := r.apiCalls, authMessage := r.authMessage }

/-- The input-validation predicate of `UploadCommand.execute`: a supported
`--source`, a `--service`, and both credential environment variables. -/
def validInput (env : UploadEnv) : Bool :=
  (match env.source with
   | some src => SUPPORTED_SOURCES.contains src
   | none => false)
  && env.service.isSome && env.appKey.isSome && env.apiKey.isSome

/- ### synthetics utils (src/commands/synthetics/utils.ts, absent from src/) -/

/-- Modelled from the spec: `hasTestSucceeded` is defined in
src/commands/synthetics/utils.ts, which is not among the provided sources;
only its callers in run-test.ts are.  Spec contract (section 4.1): a test
succeeds iff all of its `PollResult.result.passed` are true, and an empty
result set is not a success state. -/
def hasTestSucceeded (results : List PollResult) : Bool :=
  !results.isEmpty && results.all (fun r => r.result.passed)

/-- `t.options.ci?.executionRule === ExecutionRule.NON_BLOCKING`: the
optional-chaining test used throughout run-test.ts.  A missing `ci` block
or a missing `executionRule` compares unequal to `NON_BLOCKING`. -/
def isNonBlockingTest (t : Test) : Bool :=
  match t.options.ci with
  | some ci => ci.executionRule == some ExecutionRule.NON_BLOCKING
  | none => false

/-- `RunTestCommand.sortTestsByOutcome` (run-test.ts lines 226-243): the
comparator over tests, closed over the polled results map.  `results` is
total here; run-test.ts indexes `results[t.public_id]`. -/
def sortTestsByOutcome (results : String → List PollResult) (t1 t2 : Test) : Int :=
  let success1 := hasTestSucceeded (results t1.public_id)
  let success2 := hasTestSucceeded (results t2.public_id)
  let isNonBlockingTest1 := isNonBlockingTest t1
  let isNonBlockingTest2 := isNonBlockingTest t2
  if success1 == success2 then
    if isNonBlockingTest1 == isNonBlockingTest2 then 0
    else if isNonBlockingTest1 then -1 else 1
  else if success1 then -1 else 1

/-- Insert `a` into `l`, after every element `h` with `le h a`.  Helper for
the stable sort below. -/
def insertByLe {α : Type} (le : α → α → Bool) (a : α) : List α → List α
  | [] => [a]
  | h :: t => if le h a then h :: insertByLe le a t else a :: h :: t

/-- A stable sort: elements are processed left to right and each is placed
after all already-placed elements that compare before-or-equal to it, so
elements that compare equal keep their original relative order.  This is
the observable behavior of `Array.prototype.sort` with a comparator `cmp`
when `le x y` is `cmp x y <= 0`. -/
def stableSort {α : Type} (le : α → α → Bool) (l : List α) : List α :=
  l.foldl (fun acc a => insertByLe le a acc) []

/-- JS object spread `{...g, ...t}` on two `ConfigOverride` objects: for
each top-level key, the value of `t` if the key is present in `t`,
otherwise the value of `g`.  The spread is shallow: nested objects such as
`headers` are taken wholesale from whichever side wins. -/
def spreadMerge (g t : ConfigOverride) : ConfigOverride where
  allowInsecureCertificates := t.allowInsecureCertificates.orElse fun _ => g.allowInsecureCertificates
  basicAuth := t.basicAuth.orElse fun _ => g.basicAuth
  deviceIds := t.deviceIds.orElse fun _ => g.deviceIds
  followRedirects := t.followRedirects.orElse fun _ => g.followRedirects
  headers := t.headers.orElse fun _ => g.headers
  locations := t.locations.orElse fun _ => g.locations
  skip := t.skip.orElse fun _ => g.skip
  startUrl := t.startUrl.orElse fun _ => g.startUrl
  variableOverrides := t.variableOverrides.orElse fun _ => g.variableOverrides

/-- The suite branch of `RunTestCommand.getTestsList` (run-test.ts lines
208-223): suites whose `content.tests` is missing are filtered out, and
each remaining suite test becomes a `TriggerConfig` whose config is
`{...this.config.global, ...test.config}` (spreading an absent per-test
config leaves the global override unchanged). -/
def getTestsList (globalConfig : ConfigOverride) (suites : List Suite) : List TriggerConfig :=
  ((suites.filter (fun s => s.tests.isSome)).map (fun s =>
    (s.tests.getD []).map (fun t =>
      { suite := s.name
        config := match t.config with
                  | some c => spreadMerge globalConfig c
                  | none => spreadMerge globalConfig {}
        id := t.id }))).foldl (· ++ ·) []

/-- Look a key up in the (possibly absent) `headers` map of an override. -/
def headerLookup (c : ConfigOverride) (k : String) : Option String :=
  (c.headers.getD []).lookup k

/- ### RunTestCommand.execute (src/commands/synthetics/run-test.ts) -/

/-- The `triggers` object returned by `runTests`: the field `results` is
checked for truthiness (`if (!triggers.results) throw ...`), so a response
may omit it. -/
structure Trigger where
  results : Option (List TriggerResult)
deriving DecidableEq, Repr

/-- The `{tests, overriddenTestsToTrigger, summary}` triple returned by
`getTestsToTrigger` (defined in utils.ts, outside the provided sources);
the orchestrator consumes it as given. -/
structure TestsToTriggerOut where
  tests : List Test
  overriddenTestsToTrigger : List TriggerConfig
  summary : Summary
deriving Repr

/-- Termination of an async call: it returned a value or it threw. -/
inductive CallResult (α : Type) where
  | value (a : α)
  | thrown
deriving DecidableEq, Repr

/-- Inputs of one `synthetics run-tests` run: CLI/config state read by
`execute` and the outcome of each external call.  `getPresignedURL` is
assumed to succeed (its failure path is not among the claims), and
`pollResults` is the outcome of `waitForResults`, delivering the results
map or throwing. -/
structure ExecEnv where
  publicIds : List String
  globalConfig : ConfigOverride
  testsList : List TriggerConfig
  testsToTriggerOut : TestsToTriggerOut
  shouldOpenTunnel : Option Bool
  configTunnel : Bool
  tunnelStartOk : Bool
  runTestsCall : CallResult Trigger
  pollCall : CallResult (String → List PollResult)

/-- How `execute` ended: it returned an exit code, or an uncaught error
unwound out of it (the `runTests` rejection and the `No result to poll.`
throw are not caught inside `execute`). -/
inductive ExecExit where
  | code (n : Nat)
  | threw
deriving DecidableEq, Repr

/-- Observable result of `RunTestCommand.execute`: how it ended, whether
`tunnel.start()` was attempted, how many times `tunnel.stop()` ran, whether
`runTests` (the trigger submission) was invoked, whether a
nothing-to-run notice was logged, and the summary counters (none before
`getTestsToTrigger` has produced them). -/
structure ExecOut where
  exit : ExecExit
  tunnelStartAttempted : Bool
  tunnelStopCalls : Nat
  triggerCalled : Bool
  nothingToRunNotice : Bool
  summary : Option Summary
deriving DecidableEq, Repr

/-- `(this.shouldOpenTunnel === undefined && this.config.tunnel) ||
this.shouldOpenTunnel` (run-test.ts line 70). -/
def tunnelRequested (env : ExecEnv) : Bool :=
  (env.shouldOpenTunnel.isNone && env.configTunnel) || env.shouldOpenTunnel.getD false

/-- `publicIdsFromCli.length ? publicIdsFromCli : await this.getTestsList(api)`
(run-test.ts lines 57-58): explicit `-p` ids win over discovery. -/
def selectedTests (env : ExecEnv) : List TriggerConfig :=
  if env.publicIds.isEmpty then env.testsList
  else env.publicIds.map (fun id => { suite := "CLI Suite", config := env.globalConfig, id := id })

/-- The evaluation loop of `execute` (run-test.ts lines 117-132): one pass
over the sorted tests, bumping `summary.passed`/`summary.failed` and
clearing the run-level `hasSucceeded` flag on a failing test whose
execution rule is not `NON_BLOCKING`. -/
def evaluateTests (results : String → List PollResult) :
    List Test → Summary → Bool → Summary × Bool
  | [], s, ok => (s, ok)
  | t :: rest, s, ok =>
    if hasTestSucceeded (results t.public_id) then
      evaluateTests results rest { s with passed := s.passed + 1 } ok
    else
      evaluateTests results rest { s with failed := s.failed + 1 }
        (ok && isNonBlockingTest t)

/-- `RunTestCommand.execute` (run-test.ts lines 45-151), as a function of
the outcomes of its external calls.  Control flow in source order: early
return 0 when nothing was selected; `getTestsToTrigger`; the tunnel block
(start attempted iff requested, its failure caught and mapped to return 1);
`runTests` (before the skipped-tests check); return 0 when every test was
skipped or missing; the `No result to poll.` throw when `triggers.results`
is absent; then the try/finally whose `finally` stops the tunnel — the
only region in which `tunnel.stop()` runs. -/
def execute (env : ExecEnv) : ExecOut :=
  let testsToTrigger := selectedTests env
  if testsToTrigger.isEmpty then
    { exit := .code 0, tunnelStartAttempted := false, tunnelStopCalls := 0,
      triggerCalled := false, nothingToRunNotice := true, summary := none }
  else
    let tt := env.testsToTriggerOut
    if tunnelRequested env && !env.tunnelStartOk then
      { exit := .code 1, tunnelStartAttempted := true, tunnelStopCalls := 0,
        triggerCalled := false, nothingToRunNotice := false, summary := some tt.summary }
    else
      match env.runTestsCall with
      | .thrown =>
        { exit := .threw, tunnelStartAttempted := tunnelRequested env, tunnelStopCalls := 0,
          triggerCalled := true, nothingToRunNotice := false, summary := some tt.summary }
      | .value triggers =>
        if tt.tests.isEmpty then
          { exit := .code 0, tunnelStartAttempted := tunnelRequested env, tunnelStopCalls := 0,
            triggerCalled := true, nothingToRunNotice := true, summary := some tt.summary }
        else
          match triggers.results with
          | none =>
            { exit := .threw, tunnelStartAttempted := tunnelRequested env, tunnelStopCalls := 0,
              triggerCalled := true, nothingToRunNotice := false, summary := some tt.summary }
          | some _ =>
            match env.pollCall with
            | .thrown =>
              { exit := .code 1, tunnelStartAttempted := tunnelRequested env,
                tunnelStopCalls := if tunnelRequested env then 1 else 0,
                triggerCalled := true, nothingToRunNotice := false, summary := some tt.summary }
            | .value results =>
              let r := evaluateTests results tt.tests tt.summary true
              { exit := .code (if r.2 then 0 else 1),
                tunnelStartAttempted := tunnelRequested env,
                tunnelStopCalls := if tunnelRequested env then 1 else 0,
                triggerCalled := true, nothingToRunNotice := false, summary := some r.1 }

/-- Modelled from the spec: the process exit status of a run.  `execute`
returning n exits with n; an error unwinding out of `execute` is reported
by the CLI runner (outside the provided sources) as exit status 1 — spec
section 6: exit 1 on any unrecoverable error. -/
def exitStatus (o : ExecOut) : Nat :=
  match o.exit with
  | .code n => n
  | .threw => 1

/- ### Result Poller (waitForResults, spec section 4.3) -/

/-- Modelled from the spec: `waitForResults` is defined in
src/commands/synthetics/utils.ts, which is not among the provided sources.
`ownerOf tRs rid` resolves a result id to the `public_id` of the test that
owns it: the first `TriggerResult` carrying that `result_id`. -/
def ownerOf (tRs : List TriggerResult) (rid : String) : Option String :=
  (tRs.find? (fun tr => tr.result_id == rid)).map (fun tr => tr.public_id)

/-- Modelled from the spec: a completed result is one whose
`result.eventType` indicates completion (the `finished` marker). -/
def isFinished (p : PollResult) : Bool :=
  p.result.eventType == "finished"

/-- Modelled from the spec: process one `pollResults` response.  Every
returned `PollResult` that is completed and whose id is still outstanding
is moved from outstanding to resolved, keyed by its owning test public id.
Returns the new outstanding set and the accumulated (public_id, result)
pairs. -/
def processResponse (tRs : List TriggerResult) :
    List PollResult → List String → List (String × PollResult) →
    List String × List (String × PollResult)
  | [], outstanding, acc => (outstanding, acc)
  | p :: rest, outstanding, acc =>
    if isFinished p && outstanding.contains p.resultID then
      match ownerOf tRs p.resultID with
      | some pid =>
        processResponse tRs rest (outstanding.erase p.resultID) ((pid, p) :: acc)
      | none =>
        processResponse tRs rest (outstanding.erase p.resultID) acc
    else
      processResponse tRs rest outstanding acc

/-- Modelled from the spec: the fixed-interval poll loop.  Each element of
`responses` is the (possibly empty, for a transient network failure) result
of one `pollResults` tick before the deadline; the loop stops early once
nothing is outstanding, and the deadline is reached when the responses are
exhausted. -/
def pollLoop (tRs : List TriggerResult) :
    List (List PollResult) → List String → List (String × PollResult) →
    List String × List (String × PollResult)
  | [], outstanding, acc => (outstanding, acc)
  | resp :: rest, outstanding, acc =>
    if outstanding.isEmpty then (outstanding, acc)
    else
      let r := processResponse tRs resp outstanding acc
      pollLoop tRs rest r.1 r.2

/-- Modelled from the spec: the synthetic failed result attached to an
execution instance still outstanding at the deadline. -/
def timedOutPollResult (rid : String) : PollResult :=
  { dc_id := 0
    result := { passed := false, eventType := "finished", error := some "Timeout" }
    resultID := rid }

/-- Whether a poll result is the synthetic timed-out failure. -/
def isTimedOut (p : PollResult) : Bool :=
  p.result.error == some "Timeout" && !p.result.passed

/-- Modelled from the spec (section 4.3): `waitForResults`.  Outstanding
ids are seeded from all trigger results; responses are processed until all
are resolved or the deadline (exhaustion of `responses`) expires; every id
still outstanding then contributes a synthetic timed-out failure keyed by
its owning test.  The returned map is represented as the flat list of
(public_id, PollResult) entries. -/
def waitForResults (tRs : List TriggerResult) (responses : List (List PollResult)) :
    List (String × PollResult) :=
  let r := pollLoop tRs responses (tRs.map (fun tr => tr.result_id)) []
  r.2 ++ r.1.filterMap (fun rid =>
    (ownerOf tRs rid).map (fun pid => (pid, timedOutPollResult rid)))

/-- The outstanding set left when the poll loop ends (empty on completion,
the unresolved ids on timeout). -/
def finalOutstanding (tRs : List TriggerResult) (responses : List (List PollResult)) :
    List String :=
  (pollLoop tRs responses (tRs.map (fun tr => tr.result_id)) []).1

/-- The key list of the returned map: public ids owning at least one entry. -/
def mapKeys (pairs : List (String × PollResult)) : List String :=
  pairs.map Prod.fst

/-- The entry list of the returned map under one public id. -/
def resultsFor (pairs : List (String × PollResult)) (pid : String) : List PollResult :=
  (pairs.filter (fun pr => pr.1 == pid)).map Prod.snd

/-- The set of public ids of the triggered tests. -/
def triggeredPublicIds (tRs : List TriggerResult) : List String :=
  tRs.map (fun tr => tr.public_id)

/- ### Concrete values used by witnesses and counterexamples -/

/-- A passing poll result. -/
def passPollResult : PollResult :=
  { dc_id := 1, result := { passed := true, eventType := "finished", error := none }, resultID := "r-pass" }

/-- A failing poll result. -/
def failPollResult : PollResult :=
  { dc_id := 1, result := { passed := false, eventType := "finished", error := none }, resultID := "r-fail" }

/-- Options of a test classified blocking. -/
def blockingOptions : TestOptions := { ci := some { executionRule := some ExecutionRule.BLOCKING } }

/-- Options of a test classified non-blocking. -/
def nonBlockingOptions : TestOptions := { ci := some { executionRule := some ExecutionRule.NON_BLOCKING } }

/-- Test A of the spec example: failing and blocking. -/
def testA : Test := { name := "A", public_id := "aaa-aaa-aaa", options := blockingOptions }

/-- Test B of the spec example: passing. -/
def testB : Test := { name := "B", public_id := "bbb-bbb-bbb", options := blockingOptions }

/-- Test C of the spec example: failing and non-blocking. -/
def testC : Test := { name := "C", public_id := "ccc-ccc-ccc", options := nonBlockingOptions }

/-- The results map of the spec example: B passes, A and C fail. -/
def demoResults : String → List PollResult :=
  fun pid => if pid == "bbb-bbb-bbb" then [passPollResult] else [failPollResult]

/-- Global override of the spec merge example: `{headers:{a:1}}`. -/
def globalHeadersConfig : ConfigOverride := { headers := some [("a", "1")] }

/-- Per-test override of the spec merge example: `{headers:{b:2}}`. -/
def perTestHeadersConfig : ConfigOverride := { headers := some [("b", "2")] }

/-- A one-test suite carrying the per-test override of the merge example. -/
def demoSuite : Suite :=
  { name := "suite.synthetics.json"
    tests := some [{ id := "test-1", config := some perTestHeadersConfig }] }

/-- An upload environment passing validation whose dependencies file is
missing. -/
def uploadEnvMissingFile : UploadEnv :=
  { source := some "snyk", service := some "svc", appKey := some "app"
    apiKey := some "api", fileExists := false, dryRun := false
    outcomes := fun _ => AttemptOutcome.success }

/-- An upload environment passing validation, with the file present and
dry-run set. -/
def uploadEnvDryRun : UploadEnv :=
  { source := some "snyk", service := some "svc", appKey := some "app"
    apiKey := some "api", fileExists := true, dryRun := true
    outcomes := fun _ => AttemptOutcome.httpError 500 }

/- ### Further concrete environments -/

/-- A run with one selected test where the tunnel is requested and
`tunnel.start()` fails. -/
def tunnelFailEnv : ExecEnv :=
  { publicIds := ["aaa-aaa-aaa"], globalConfig := {}, testsList := []
    testsToTriggerOut := { tests := [testA], overriddenTestsToTrigger := [], summary := ⟨0, 0, 0⟩ }
    shouldOpenTunnel := some true, configTunnel := false, tunnelStartOk := false
    runTestsCall := CallResult.value { results := some [] }
    pollCall := CallResult.value (fun _ => []) }

/-- A run with one selected test where the tunnel is requested, starts, and
the run reaches polling and evaluation. -/
def tunnelOkEnv : ExecEnv :=
  { publicIds := ["aaa-aaa-aaa"], globalConfig := {}, testsList := []
    testsToTriggerOut := { tests := [testA], overriddenTestsToTrigger := [], summary := ⟨0, 0, 0⟩ }
    shouldOpenTunnel := some true, configTunnel := false, tunnelStartOk := true
    runTestsCall := CallResult.value { results := some [] }
    pollCall := CallResult.value demoResults }

/-- A run without tunnel evaluating tests B (passing, blocking) and C
(failing, non-blocking). -/
def evalEnv : ExecEnv :=
  { publicIds := ["bbb-bbb-bbb", "ccc-ccc-ccc"], globalConfig := {}, testsList := []
    testsToTriggerOut := { tests := [testB, testC], overriddenTestsToTrigger := [], summary := ⟨0, 0, 0⟩ }
    shouldOpenTunnel := none, configTunnel := false, tunnelStartOk := true
    runTestsCall := CallResult.value { results := some [] }
    pollCall := CallResult.value demoResults }

/-- A run in which both explicit ids and discovery are empty. -/
def emptySelectionEnv : ExecEnv :=
  { publicIds := [], globalConfig := {}, testsList := []
    testsToTriggerOut := { tests := [], overriddenTestsToTrigger := [], summary := ⟨0, 0, 0⟩ }
    shouldOpenTunnel := none, configTunnel := false, tunnelStartOk := true
    runTestsCall := CallResult.value { results := some [] }
    pollCall := CallResult.value (fun _ => []) }

/-- A run in which a test suite was selected but every test in it was
skipped or missing, so `getTestsToTrigger` returned no tests. -/
def allSkippedEnv : ExecEnv :=
  { publicIds := ["aaa-aaa-aaa"], globalConfig := {}, testsList := []
    testsToTriggerOut := { tests := [], overriddenTestsToTrigger := [], summary := ⟨0, 0, 1⟩ }
    shouldOpenTunnel := none, configTunnel := false, tunnelStartOk := true
    runTestsCall := CallResult.value { results := some [] }
    pollCall := CallResult.value (fun _ => []) }

/-- A trigger result owned by the `aaa` test. -/
def demoTriggerResult : TriggerResult :=
  { device := "chrome.laptop_large", location := 1
    public_id := "aaa-aaa-aaa", result_id := "rid-1" }


/- ### Helper lemmas -/

/-- The retry loop performs at most `retriesLeft + 1` attempts. -/
theorem runRetry_calls_le (outcomes : Nat → AttemptOutcome) :
    ∀ n i, (runRetry outcomes n i).1 ≤ n + 1 := by
  intro n
  induction n with
  | zero =>
    intro i
    unfold runRetry
    rcases outcomes i with _ | s | _ <;> simp
  | succ n ih =>
    intro i
    unfold runRetry
    rcases outcomes i with _ | s | _ <;> simp
    by_cases hc : s ∈ errorCodesNoRetry
    · simp [hc]
    · simp [hc]
      have := ih (i + 1)
      omega

/-- Both branches of the final match give `apiCalls` = number of attempts. -/
theorem uploadDependencies_apiCalls (outcomes : Nat → AttemptOutcome) :
    (uploadDependencies false outcomes).apiCalls = (runRetry outcomes 5 0).1 := by
  unfold uploadDependencies
  rcases h : (runRetry outcomes 5 0).2 with _ | e <;> simp [h]

/-- Both branches of the final match give `outcome` = the retry outcome. -/
theorem uploadDependencies_outcome (outcomes : Nat → AttemptOutcome) :
    (uploadDependencies false outcomes).outcome = (runRetry outcomes 5 0).2 := by
  unfold uploadDependencies
  rcases h : (runRetry outcomes 5 0).2 with _ | e <;> simp [h]

/- ### Claim theorems -/

/-- C6: `hasTestSucceeded` returns true iff the poll-result list is
non-empty and every entry has `result.passed` true; a list containing a
`passed:false` entry yields false, and the empty list is not a success. -/
theorem hasTestSucceeded_spec (results : List PollResult) :
    (hasTestSucceeded results = true ↔
      results ≠ [] ∧ ∀ r ∈ results, r.result.passed = true)
    ∧ ((∃ r ∈ results, r.result.passed = false) → hasTestSucceeded results = false)
    ∧ hasTestSucceeded ([] : List PollResult) = false := by
  refine ⟨?_, ?_, by decide⟩
  · simp [hasTestSucceeded, List.all_eq_true, List.isEmpty_iff]
  · rintro ⟨r, hr, hp⟩
    have hall : results.all (fun r => r.result.passed) = false := by
      rw [List.all_eq_false]
      exact ⟨r, hr, by simp [hp]⟩
    simp [hasTestSucceeded, hall]

/-- C6 witness: a singleton failing list yields false. -/
theorem hasTestSucceeded_spec_witness :
    hasTestSucceeded [failPollResult] = false :=
  (hasTestSucceeded_spec [failPollResult]).2.1 ⟨failPollResult, by decide, by decide⟩

/-- C7 counterexample: when every attempt fails with a retryable HTTP 500,
the upload is attempted 6 times, not at most 5: `retries: 5` in
`async-retry` allows one initial attempt plus 5 retries. -/
theorem uploadDependencies_six_attempts :
    (uploadDependencies false (fun _ => AttemptOutcome.httpError 500)).apiCalls = 6
    ∧ ¬ (uploadDependencies false (fun _ => AttemptOutcome.httpError 500)).apiCalls ≤ 5 := by
  refine ⟨by decide, by decide⟩

/-- C7 (amended): the upload is attempted at most 6 times in total (one
initial attempt plus 5 retries); an attempt failing with an HTTP status in
{400, 403, 413} is never retried and ends the retry loop immediately with
that error after a single call; and a final 403 failure is surfaced with
the authorization-failure message rather than the generic one. -/
theorem uploadDependencies_retry_policy (outcomes : Nat → AttemptOutcome) :
    (uploadDependencies false outcomes).apiCalls ≤ 6
    ∧ (∀ n i s, outcomes i = AttemptOutcome.httpError s → s ∈ errorCodesNoRetry →
        runRetry outcomes n i = (1, RetryOutcome.rejected (AttemptOutcome.httpError s)))
    ∧ ((uploadDependencies false outcomes).outcome =
          RetryOutcome.rejected (AttemptOutcome.httpError 403) →
        (uploadDependencies false outcomes).authMessage = true
        ∧ (uploadDependencies false outcomes).genericFailMessage = false)
    ∧ (∀ e, (uploadDependencies false outcomes).outcome = RetryOutcome.rejected e →
        e ≠ AttemptOutcome.httpError 403 →
        (uploadDependencies false outcomes).genericFailMessage = true) := by
  refine ⟨?_, ?_, ?_, ?_⟩
  · rw [uploadDependencies_apiCalls]
    have := runRetry_calls_le outcomes 5 0
    omega
  · intro n i s h hs
    cases n <;> unfold runRetry <;> simp [h, hs]
  · intro h
    rw [uploadDependencies_outcome] at h
    unfold uploadDependencies
    simp [h]
  · intro e h hne
    rw [uploadDependencies_outcome] at h
    unfold uploadDependencies
    simp [h, hne]

/-- C7 witness: a first attempt rejected with the non-retryable 403 ends
the loop at once with a single call. -/
theorem uploadDependencies_retry_policy_witness :
    runRetry (fun _ => AttemptOutcome.httpError 403) 5 0 =
      (1, RetryOutcome.rejected (AttemptOutcome.httpError 403)) :=
  ((uploadDependencies_retry_policy (fun _ => AttemptOutcome.httpError 403)).2.1)
    5 0 403 rfl (by decide)

/-- C8: the dependencies upload command uses three pairwise-distinct exit
codes: 1 for invalid input (missing or unsupported source, missing
service, missing credentials), 2 for a missing dependencies file, and 3
for an upload failure after validation. -/
theorem uploadExecute_exit_codes (env : UploadEnv) :
    (INVALID_INPUT_EXIT_CODE ≠ MISSING_FILE_EXIT_CODE
      ∧ INVALID_INPUT_EXIT_CODE ≠ UPLOAD_ERROR_EXIT_CODE
      ∧ MISSING_FILE_EXIT_CODE ≠ UPLOAD_ERROR_EXIT_CODE)
    ∧ (validInput env = false → (uploadExecute env).exit = INVALID_INPUT_EXIT_CODE)
    ∧ (validInput env = true → env.fileExists = false →
        (uploadExecute env).exit = MISSING_FILE_EXIT_CODE)
    ∧ (validInput env = true → env.fileExists = true →
        ∀ e, (uploadDependencies env.dryRun env.outcomes).outcome = RetryOutcome.rejected e →
          (uploadExecute env).exit = UPLOAD_ERROR_EXIT_CODE)
    ∧ (validInput env = true → env.fileExists = true →
        (uploadDependencies env.dryRun env.outcomes).outcome = RetryOutcome.resolved →
          (uploadExecute env).exit = 0) := by
  obtain ⟨src, svc, ak, apk, fe, dr, oc⟩ := env
  refine ⟨⟨by decide, by decide, by decide⟩, ?_, ?_, ?_, ?_⟩
  · intro hv
    rcases src with _ | s
    · simp [uploadExecute]
    · rcases svc with _ | v <;> rcases ak with _ | a <;> rcases apk with _ | b <;>
        by_cases h1 : SUPPORTED_SOURCES.contains s = true <;>
        simp_all [uploadExecute, validInput]
  · intro hv hf
    rcases src with _ | s
    · simp [validInput] at hv
    · rcases svc with _ | v <;> rcases ak with _ | a <;> rcases apk with _ | b <;>
        simp_all [uploadExecute, validInput]
  · intro hv hf e h
    rcases src with _ | s
    · simp [validInput] at hv
    · rcases svc with _ | v <;> rcases ak with _ | a <;> rcases apk with _ | b <;>
        simp_all [uploadExecute, validInput]
  · intro hv hf h
    rcases src with _ | s
    · simp [validInput] at hv
    · rcases svc with _ | v <;> rcases ak with _ | a <;> rcases apk with _ | b <;>
        simp_all [uploadExecute, validInput]

/-- C8 witness: a validated run with a missing file exits with code 2. -/
theorem uploadExecute_exit_codes_witness :
    (uploadExecute uploadEnvMissingFile).exit = MISSING_FILE_EXIT_CODE :=
  (uploadExecute_exit_codes uploadEnvMissingFile).2.2.1 (by decide) (by decide)

/-- C10: a dry-run upload that passes validation and finds the file never
calls `api.uploadDependencies` and completes through the success path with
exit status 0. -/
theorem uploadExecute_dryRun_no_calls (env : UploadEnv)
    (hv : validInput env = true) (hf : env.fileExists = true)
    (hd : env.dryRun = true) :
    (uploadExecute env).apiCalls = 0 ∧ (uploadExecute env).exit = 0 := by
  obtain ⟨src, svc, ak, apk, fe, dr, oc⟩ := env
  rcases src with _ | s <;> rcases svc with _ | v <;> rcases ak with _ | a <;>
    rcases apk with _ | b <;> simp_all [uploadExecute, validInput, uploadDependencies]

/-- C10 witness: the concrete dry-run environment makes no api call and
exits 0. -/
theorem uploadExecute_dryRun_no_calls_witness :
    (uploadExecute uploadEnvDryRun).apiCalls = 0 ∧ (uploadExecute uploadEnvDryRun).exit = 0 :=
  uploadExecute_dryRun_no_calls uploadEnvDryRun (by decide) (by decide) (by decide)

/-- C2: the comparator returns a value in {-1, 0, 1}; equal success state
and equal non-blocking classification give 0; with equal success states the
`NON_BLOCKING` test sorts before the other; with differing success states
the succeeding test sorts first; and a stable sort of the spec example
[A(fail,blocking), B(pass), C(fail,non-blocking)] yields [B, C, A]. -/
theorem sortTestsByOutcome_spec (results : String → List PollResult) (t1 t2 : Test) :
    (sortTestsByOutcome results t1 t2 = -1 ∨ sortTestsByOutcome results t1 t2 = 0
      ∨ sortTestsByOutcome results t1 t2 = 1)
    ∧ (hasTestSucceeded (results t1.public_id) = hasTestSucceeded (results t2.public_id) →
        isNonBlockingTest t1 = isNonBlockingTest t2 → sortTestsByOutcome results t1 t2 = 0)
    ∧ (hasTestSucceeded (results t1.public_id) = hasTestSucceeded (results t2.public_id) →
        isNonBlockingTest t1 = true → isNonBlockingTest t2 = false →
        sortTestsByOutcome results t1 t2 = -1)
    ∧ (hasTestSucceeded (results t1.public_id) = hasTestSucceeded (results t2.public_id) →
        isNonBlockingTest t1 = false → isNonBlockingTest t2 = true →
        sortTestsByOutcome results t1 t2 = 1)
    ∧ (hasTestSucceeded (results t1.public_id) = true →
        hasTestSucceeded (results t2.public_id) = false →
        sortTestsByOutcome results t1 t2 = -1)
    ∧ (hasTestSucceeded (results t1.public_id) = false →
        hasTestSucceeded (results t2.public_id) = true →
        sortTestsByOutcome results t1 t2 = 1)
    ∧ stableSort (fun u v => sortTestsByOutcome demoResults u v ≤ 0) [testA, testB, testC]
        = [testB, testC, testA] := by
  refine ⟨?_, ?_, ?_, ?_, ?_, ?_, by decide⟩ <;>
    rcases h1 : hasTestSucceeded (results t1.public_id) <;>
    rcases h2 : hasTestSucceeded (results t2.public_id) <;>
    rcases h3 : isNonBlockingTest t1 <;>
    rcases h4 : isNonBlockingTest t2 <;>
    simp [sortTestsByOutcome, h1, h2, h3, h4]

/-- C2 witness: in the spec example, B (passing) sorts before A (failing
blocking). -/
theorem sortTestsByOutcome_spec_witness :
    sortTestsByOutcome demoResults testB testA = -1 :=
  (sortTestsByOutcome_spec demoResults testB testA).2.2.2.2.1 (by decide) (by decide)

/-- C3 counterexample: with global `{headers:{a:1}}` and per-test
`{headers:{b:2}}`, the effective config produced for the suite test has
headers `{b:2}` only — the key `a` is dropped, because the JS object
spread replaces the nested `headers` map wholesale. -/
theorem getTestsList_merge_counterexample :
    getTestsList globalHeadersConfig [demoSuite] =
      [{ suite := "suite.synthetics.json"
         config := { headers := some [("b", "2")] }
         id := "test-1" }]
    ∧ headerLookup (spreadMerge globalHeadersConfig perTestHeadersConfig) "a" = none
    ∧ ¬ headerLookup (spreadMerge globalHeadersConfig perTestHeadersConfig) "a" = some "1"
    ∧ headerLookup (spreadMerge globalHeadersConfig perTestHeadersConfig) "b" = some "2" := by
  refine ⟨by decide, by decide, by decide, by decide⟩

/-- C3 (amended): the effective config of a suite-discovered test is the
global override spread-merged with the per-test override, with per-test
keys winning wholesale at top-level granularity: when the per-test
override defines `headers`, the global `headers` map contributes nothing
to the result; only when the per-test override omits `headers` does the
global map survive. -/
theorem getTestsList_merge_shallow (g c : ConfigOverride) (k : String) :
    (∀ h, c.headers = some h →
        headerLookup (spreadMerge g c) k = h.lookup k)
    ∧ (c.headers = none → headerLookup (spreadMerge g c) k = headerLookup g k)
    ∧ (∀ sname tid,
        getTestsList g [{ name := sname, tests := some [{ id := tid, config := some c }] }] =
          [{ suite := sname, config := spreadMerge g c, id := tid }]) := by
  refine ⟨?_, ?_, ?_⟩
  · intro h hh
    simp [headerLookup, spreadMerge, hh, Option.orElse]
  · intro hh
    simp [headerLookup, spreadMerge, hh, Option.orElse]
  · intro sname tid
    simp [getTestsList]

/-- C3 witness: in the spec example the per-test headers replace the
global ones. -/
theorem getTestsList_merge_shallow_witness :
    headerLookup (spreadMerge globalHeadersConfig perTestHeadersConfig) "b" =
      List.lookup "b" [("b", "2")] :=
  (getTestsList_merge_shallow globalHeadersConfig perTestHeadersConfig "b").1
    [("b", "2")] rfl

/- ### Claim C1 -/

/-- C1 counterexample: in a run where `tunnel.start()` was attempted and
failed, `execute` returns 1 without ever calling `tunnel.stop()`: the
`finally` block stopping the tunnel only wraps the polling stage, not the
tunnel block itself. -/
theorem execute_tunnel_stop_counterexample :
    (execute tunnelFailEnv).tunnelStartAttempted = true
    ∧ (execute tunnelFailEnv).tunnelStopCalls = 0
    ∧ (execute tunnelFailEnv).exit = ExecExit.code 1 := by
  refine ⟨by decide, by decide, by decide⟩

/-- C1 (amended): `tunnel.stop()` is called exactly once only when
`start()` succeeded and control reached the polling stage (trigger
submission returned, some test remained, result handles were present) —
including when polling or evaluation throws; it is called zero times on
tunnel-start failure, on trigger-submission failure, on the
`No result to poll.` throw, and on the all-skipped early return. -/
theorem execute_tunnel_stop (env : ExecEnv) :
    (∀ tr rs, (selectedTests env).isEmpty = false → tunnelRequested env = true →
      env.tunnelStartOk = true → env.runTestsCall = CallResult.value tr →
      tr.results = some rs → env.testsToTriggerOut.tests.isEmpty = false →
      (execute env).tunnelStopCalls = 1 ∧ (execute env).tunnelStartAttempted = true)
    ∧ ((selectedTests env).isEmpty = false → tunnelRequested env = true →
        env.tunnelStartOk = false →
        (execute env).tunnelStartAttempted = true ∧ (execute env).tunnelStopCalls = 0)
    ∧ ((selectedTests env).isEmpty = false → env.runTestsCall = CallResult.thrown →
        (execute env).tunnelStopCalls = 0)
    ∧ (∀ tr, (selectedTests env).isEmpty = false → env.runTestsCall = CallResult.value tr →
        tr.results = none → env.testsToTriggerOut.tests.isEmpty = false →
        (execute env).tunnelStopCalls = 0)
    ∧ (∀ tr, (selectedTests env).isEmpty = false → env.runTestsCall = CallResult.value tr →
        env.testsToTriggerOut.tests.isEmpty = true →
        (execute env).tunnelStopCalls = 0)
    ∧ (tunnelRequested env = false →
        (execute env).tunnelStopCalls = 0 ∧ (execute env).tunnelStartAttempted = false) := by
  refine ⟨?_, ?_, ?_, ?_, ?_, ?_⟩
  · intro tr rs h1 h2 h3 h4 h5 h6
    rcases hpoll : env.pollCall with res | _ <;>
      simp [execute, h1, h2, h3, h4, h5, h6, hpoll]
  · intro h1 h2 h3
    simp [execute, h1, h2, h3]
  · intro h1 h4
    rcases hreq : tunnelRequested env <;> rcases hok : env.tunnelStartOk <;>
      simp [execute, h1, h4, hreq, hok]
  · intro tr h1 h4 h5 h6
    rcases hreq : tunnelRequested env <;> rcases hok : env.tunnelStartOk <;>
      simp [execute, h1, h4, h5, h6, hreq, hok]
  · intro tr h1 h4 h6
    rcases hreq : tunnelRequested env <;> rcases hok : env.tunnelStartOk <;>
      simp [execute, h1, h4, h6, hreq, hok]
  · intro h2
    rcases hsel : (selectedTests env).isEmpty
    · rcases hrun : env.runTestsCall with tr | _
      · rcases hres : tr.results with _ | rs <;>
          rcases htests : env.testsToTriggerOut.tests.isEmpty <;>
          rcases hpoll : env.pollCall with res | _ <;>
          simp [execute, h2, hsel, hrun, hres, htests, hpoll]
      · simp [execute, h2, hsel, hrun]
    · simp [execute, hsel]

/-- C1 witness: with the tunnel started and the run reaching polling,
`stop()` runs exactly once. -/
theorem execute_tunnel_stop_witness :
    (execute tunnelOkEnv).tunnelStopCalls = 1
    ∧ (execute tunnelOkEnv).tunnelStartAttempted = true :=
  (execute_tunnel_stop tunnelOkEnv).1 { results := some [] } []
    (by decide) (by decide) (by decide) rfl rfl (by decide)

/- ### Evaluation-loop lemmas -/

/-- The run-level verdict flag after the loop: the incoming flag and every
test passing or classified non-blocking. -/
theorem evaluateTests_snd (results : String → List PollResult) :
    ∀ tests s ok, (evaluateTests results tests s ok).2 =
      (ok && tests.all (fun t =>
        hasTestSucceeded (results t.public_id) || isNonBlockingTest t)) := by
  intro tests
  induction tests with
  | nil => intro s ok; simp [evaluateTests]
  | cons t rest ih =>
    intro s ok
    rcases hp : hasTestSucceeded (results t.public_id) <;>
      simp [evaluateTests, hp, ih, Bool.and_assoc]

/-- The failed counter after the loop counts every failing test. -/
theorem evaluateTests_failed (results : String → List PollResult) :
    ∀ tests s ok, (evaluateTests results tests s ok).1.failed =
      s.failed + (tests.filter (fun t =>
        !hasTestSucceeded (results t.public_id))).length := by
  intro tests
  induction tests with
  | nil => intro s ok; simp [evaluateTests]
  | cons t rest ih =>
    intro s ok
    rcases hp : hasTestSucceeded (results t.public_id) <;>
      simp [evaluateTests, hp, ih] <;> omega

/-- A test passes-or-is-non-blocking iff it passes whenever it is
blocking. -/
theorem blockingPassIff (a b : Bool) : (a || b) = true ↔ (b = false → a = true) := by
  cases a <;> cases b <;> simp

/-- The run-level verdict flag is true iff no blocking test failed. -/
theorem allBlockingPass_iff (results : String → List PollResult) (tests : List Test) :
    tests.all (fun t => hasTestSucceeded (results t.public_id) || isNonBlockingTest t) = true
    ↔ ∀ t ∈ tests, isNonBlockingTest t = false →
        hasTestSucceeded (results t.public_id) = true := by
  rw [List.all_eq_true]
  constructor
  · intro h t ht
    exact (blockingPassIff _ _).mp (h t ht)
  · intro h t ht
    exact (blockingPassIff _ _).mpr (h t ht)

/-- A 0/1 selection is 0 iff the condition holds. -/
theorem ifZeroOne_eq_zero (c : Bool) : (if c then (0 : Nat) else 1) = 0 ↔ c = true := by
  cases c <;> simp

/- ### Claim C4 -/

/-- C4: in a run reaching evaluation, the exit status is 0 iff no blocking
test failed, and every failing test (blocking or not) increments the
failure counter; tunnel-start failure, trigger-submission failure, the
`No result to poll.` throw, and a polling error all yield exit status 1. -/
theorem execute_exit_verdict (env : ExecEnv) :
    (∀ tr rs results, (selectedTests env).isEmpty = false →
      (tunnelRequested env = true → env.tunnelStartOk = true) →
      env.runTestsCall = CallResult.value tr → tr.results = some rs →
      env.testsToTriggerOut.tests.isEmpty = false →
      env.pollCall = CallResult.value results →
      ((exitStatus (execute env) = 0 ↔
          ∀ t ∈ env.testsToTriggerOut.tests, isNonBlockingTest t = false →
            hasTestSucceeded (results t.public_id) = true)
        ∧ Option.map (fun s => s.failed) (execute env).summary =
            some (env.testsToTriggerOut.summary.failed +
              (env.testsToTriggerOut.tests.filter (fun t =>
                !hasTestSucceeded (results t.public_id))).length)))
    ∧ ((selectedTests env).isEmpty = false → tunnelRequested env = true →
        env.tunnelStartOk = false → exitStatus (execute env) = 1)
    ∧ ((selectedTests env).isEmpty = false → env.runTestsCall = CallResult.thrown →
        exitStatus (execute env) = 1)
    ∧ (∀ tr, (selectedTests env).isEmpty = false → env.runTestsCall = CallResult.value tr →
        tr.results = none → env.testsToTriggerOut.tests.isEmpty = false →
        exitStatus (execute env) = 1)
    ∧ (∀ tr rs, (selectedTests env).isEmpty = false →
        env.runTestsCall = CallResult.value tr → tr.results = some rs →
        env.testsToTriggerOut.tests.isEmpty = false →
        env.pollCall = CallResult.thrown → exitStatus (execute env) = 1) := by
  refine ⟨?_, ?_, ?_, ?_, ?_⟩
  · intro tr rs results h1 h2 h3 h4 h5 h6
    have hok : (tunnelRequested env && !env.tunnelStartOk) = false := by
      rcases hreq : tunnelRequested env
      · simp
      · simp [h2 hreq]
    constructor
    · simp only [execute, h1, hok, h3, h4, h5, h6]
      simp [exitStatus, evaluateTests_snd, ifZeroOne_eq_zero, allBlockingPass_iff]
      constructor
      · intro h t ht hnb
        rcases hp : hasTestSucceeded (results t.public_id)
        · exact absurd (h t ht hp) (by simp [hnb])
        · rfl
      · intro h t ht hp
        rcases hb : isNonBlockingTest t
        · exact absurd (h t ht hb) (by simp [hp])
        · rfl
    · simp only [execute, h1, hok, h3, h4, h5, h6]
      simp [evaluateTests_failed]
  · intro h1 h2 h3
    simp [execute, exitStatus, h1, h2, h3]
  · intro h1 h4
    rcases hreq : tunnelRequested env <;> rcases hok : env.tunnelStartOk <;>
      simp [execute, exitStatus, h1, h4, hreq, hok]
  · intro tr h1 h4 h5 h6
    rcases hreq : tunnelRequested env <;> rcases hok : env.tunnelStartOk <;>
      simp [execute, exitStatus, h1, h4, h5, h6, hreq, hok]
  · intro tr rs h1 h4 h5 h6 h7
    rcases hreq : tunnelRequested env <;> rcases hok : env.tunnelStartOk <;>
      simp [execute, exitStatus, h1, h4, h5, h6, h7, hreq, hok]

/-- C4 witness: with B passing and C failing non-blocking, the run exits
with status 0. -/
theorem execute_exit_verdict_witness :
    exitStatus (execute evalEnv) = 0 :=
  (((execute_exit_verdict evalEnv).1 { results := some [] } [] demoResults
      (by decide) (fun _ => rfl) rfl rfl (by decide) rfl).1).mpr (by decide)

/- ### Claim C5 -/

/-- C5 counterexample: when every selected test is skipped or missing, the
command exits 0 with the nothing-to-run notice, but the trigger submission
(`runTests`, which submits `triggerTests`) has already been invoked: the
empty-`tests` check sits after the `runTests` call. -/
theorem execute_nothing_to_run_counterexample :
    (execute allSkippedEnv).exit = ExecExit.code 0
    ∧ (execute allSkippedEnv).nothingToRunNotice = true
    ∧ (execute allSkippedEnv).triggerCalled = true := by
  refine ⟨by decide, by decide, by decide⟩

/-- C5 (amended): when discovery and explicit ids both yield nothing, the
command exits 0 with a nothing-to-run notice and no trigger call is made;
when tests were selected but every one was skipped or missing, the command
still exits 0 with a notice, but only after the trigger submission has
been made. -/
theorem execute_nothing_to_run (env : ExecEnv) :
    ((selectedTests env).isEmpty = true →
      (execute env).exit = ExecExit.code 0 ∧ (execute env).nothingToRunNotice = true
      ∧ (execute env).triggerCalled = false ∧ (execute env).tunnelStartAttempted = false)
    ∧ (∀ tr, (selectedTests env).isEmpty = false →
        (tunnelRequested env = true → env.tunnelStartOk = true) →
        env.runTestsCall = CallResult.value tr →
        env.testsToTriggerOut.tests.isEmpty = true →
        (execute env).exit = ExecExit.code 0 ∧ (execute env).nothingToRunNotice = true
        ∧ (execute env).triggerCalled = true) := by
  constructor
  · intro h
    simp [execute, h]
  · intro tr h1 h2 h3 h4
    have hok : (tunnelRequested env && !env.tunnelStartOk) = false := by
      rcases hreq : tunnelRequested env
      · simp
      · simp [h2 hreq]
    simp [execute, h1, hok, h3, h4]

/-- C5 witness: with nothing selected the command exits 0, notices, and
never triggers. -/
theorem execute_nothing_to_run_witness :
    (execute emptySelectionEnv).exit = ExecExit.code 0
    ∧ (execute emptySelectionEnv).nothingToRunNotice = true
    ∧ (execute emptySelectionEnv).triggerCalled = false
    ∧ (execute emptySelectionEnv).tunnelStartAttempted = false :=
  (execute_nothing_to_run emptySelectionEnv).1 (by decide)

/- ### Claim C9: poller key-set invariant -/

/-- A resolved owner is the public id of some triggered test. -/
theorem ownerOf_some_mem (tRs : List TriggerResult) (rid pid : String)
    (h : ownerOf tRs rid = some pid) : pid ∈ triggeredPublicIds tRs := by
  unfold ownerOf at h
  rcases hf : tRs.find? (fun tr => tr.result_id == rid) with _ | tr
  · rw [hf] at h
    simp at h
  · rw [hf] at h
    simp at h
    subst h
    exact List.mem_map_of_mem _ (List.mem_of_find?_eq_some hf)

/-- With pairwise-distinct result ids, the owner of a triggered result id
is exactly its test public id. -/
theorem ownerOf_eq_of_nodup (tRs : List TriggerResult)
    (hnd : (tRs.map (fun tr => tr.result_id)).Nodup) :
    ∀ tr ∈ tRs, ownerOf tRs tr.result_id = some tr.public_id := by
  induction tRs with
  | nil =>
    intro tr htr
    simp at htr
  | cons a l ih =>
    intro tr htr
    rw [List.map_cons] at hnd
    have hnd' := List.nodup_cons.mp hnd
    rcases List.mem_cons.mp htr with h | h
    · subst h
      unfold ownerOf
      rw [List.find?_cons_of_pos _ (by simp)]
      rfl
    · have hne : ¬ ((fun tr0 => tr0.result_id == tr.result_id) a = true) := by
        intro hbeq
        have heq : a.result_id = tr.result_id := by simpa using hbeq
        exact hnd'.1 (heq ▸ List.mem_map_of_mem _ h)
      unfold ownerOf
      rw [@List.find?_cons_of_neg _ (fun tr0 => tr0.result_id == tr.result_id) a l hne]
      exact ih hnd'.2 tr h

/-- The absence of an owner means no triggered result carries the id. -/
theorem ownerOf_none_not_mem (tRs : List TriggerResult) (rid : String)
    (h : ownerOf tRs rid = none) : ∀ tr ∈ tRs, tr.result_id ≠ rid := by
  intro tr htr he
  unfold ownerOf at h
  rcases hf : tRs.find? (fun tr0 => tr0.result_id == rid) with _ | tr0
  · have := List.find?_eq_none.mp hf tr htr
    simp [he] at this
  · rw [hf] at h
    simp at h

/-- Processing one poll response preserves the poller invariant: every
accumulated entry is keyed by a triggered public id, and every triggered
test either still has its result id outstanding or already owns an entry. -/
theorem processResponse_inv (tRs : List TriggerResult)
    (hnd : (tRs.map (fun tr => tr.result_id)).Nodup) :
    ∀ resp outstanding acc,
      (∀ pr ∈ acc, pr.1 ∈ triggeredPublicIds tRs) →
      (∀ tr ∈ tRs, tr.result_id ∈ outstanding ∨ tr.public_id ∈ mapKeys acc) →
      (∀ pr ∈ (processResponse tRs resp outstanding acc).2,
          pr.1 ∈ triggeredPublicIds tRs)
      ∧ (∀ tr ∈ tRs,
          tr.result_id ∈ (processResponse tRs resp outstanding acc).1
          ∨ tr.public_id ∈ mapKeys (processResponse tRs resp outstanding acc).2) := by
  intro resp
  induction resp with
  | nil =>
    intro outstanding acc hA hB
    exact ⟨by simpa [processResponse] using hA, by simpa [processResponse] using hB⟩
  | cons p rest ih =>
    intro outstanding acc hA hB
    by_cases hcond : isFinished p = true ∧ p.resultID ∈ outstanding
    · rcases how : ownerOf tRs p.resultID with _ | pid
      · have hB' : ∀ tr ∈ tRs,
            tr.result_id ∈ outstanding.erase p.resultID ∨ tr.public_id ∈ mapKeys acc := by
          intro tr htr
          rcases hB tr htr with h | h
          · left
            have hne := ownerOf_none_not_mem tRs p.resultID how tr htr
            exact (List.mem_erase_of_ne hne).mpr h
          · right
            exact h
        have hmain := ih (outstanding.erase p.resultID) acc hA hB'
        constructor
        · intro pr hpr
          exact hmain.1 pr (by simpa [processResponse, hcond, how] using hpr)
        · intro tr htr
          have h2 := hmain.2 tr htr
          simpa [processResponse, hcond, how] using h2
      · have hA' : ∀ pr ∈ ((pid, p) :: acc), pr.1 ∈ triggeredPublicIds tRs := by
          intro pr hpr
          rcases List.mem_cons.mp hpr with h | h
          · subst h
            exact ownerOf_some_mem tRs p.resultID pid how
          · exact hA pr h
        have hB' : ∀ tr ∈ tRs,
            tr.result_id ∈ outstanding.erase p.resultID
            ∨ tr.public_id ∈ mapKeys ((pid, p) :: acc) := by
          intro tr htr
          by_cases he : tr.result_id = p.resultID
          · right
            have hown := ownerOf_eq_of_nodup tRs hnd tr htr
            rw [he, how] at hown
            have hpid : pid = tr.public_id := by simpa using hown
            simp [mapKeys, hpid]
          · rcases hB tr htr with h | h
            · left
              exact (List.mem_erase_of_ne he).mpr h
            · right
              simp only [mapKeys, List.map_cons] at h ⊢
              exact List.mem_cons_of_mem _ h
        have hmain := ih (outstanding.erase p.resultID) ((pid, p) :: acc) hA' hB'
        constructor
        · intro pr hpr
          exact hmain.1 pr (by simpa [processResponse, hcond, how] using hpr)
        · intro tr htr
          have h2 := hmain.2 tr htr
          simpa [processResponse, hcond, how] using h2
    · have hmain := ih outstanding acc hA hB
      constructor
      · intro pr hpr
        exact hmain.1 pr (by simpa [processResponse, hcond] using hpr)
      · intro tr htr
        have h2 := hmain.2 tr htr
        simpa [processResponse, hcond] using h2

/-- The poll loop preserves the poller invariant across every tick. -/
theorem pollLoop_inv (tRs : List TriggerResult)
    (hnd : (tRs.map (fun tr => tr.result_id)).Nodup) :
    ∀ responses outstanding acc,
      (∀ pr ∈ acc, pr.1 ∈ triggeredPublicIds tRs) →
      (∀ tr ∈ tRs, tr.result_id ∈ outstanding ∨ tr.public_id ∈ mapKeys acc) →
      (∀ pr ∈ (pollLoop tRs responses outstanding acc).2,
          pr.1 ∈ triggeredPublicIds tRs)
      ∧ (∀ tr ∈ tRs,
          tr.result_id ∈ (pollLoop tRs responses outstanding acc).1
          ∨ tr.public_id ∈ mapKeys (pollLoop tRs responses outstanding acc).2) := by
  intro responses
  induction responses with
  | nil =>
    intro outstanding acc hA hB
    exact ⟨by simpa [pollLoop] using hA, by simpa [pollLoop] using hB⟩
  | cons resp rest ih =>
    intro outstanding acc hA hB
    rcases hout : outstanding.isEmpty
    · have hstep := processResponse_inv tRs hnd resp outstanding acc hA hB
      have hmain := ih (processResponse tRs resp outstanding acc).1
        (processResponse tRs resp outstanding acc).2 hstep.1 hstep.2
      constructor
      · intro pr hpr
        exact hmain.1 pr (by simpa [pollLoop, hout] using hpr)
      · intro tr htr
        have h2 := hmain.2 tr htr
        simpa [pollLoop, hout] using h2
    · exact ⟨by simpa [pollLoop, hout] using hA, by simpa [pollLoop, hout] using hB⟩

/-- C9: for every poller run — completed or timed out — the key set of the
returned map equals the set of public ids of the triggered tests, and
every test whose result id is still outstanding at the deadline maps to at
least one synthetic timed-out failure entry. -/
theorem waitForResults_keys (tRs : List TriggerResult)
    (responses : List (List PollResult))
    (hnd : (tRs.map (fun tr => tr.result_id)).Nodup) :
    (∀ pid, pid ∈ mapKeys (waitForResults tRs responses) ↔ pid ∈ triggeredPublicIds tRs)
    ∧ (∀ tr ∈ tRs, tr.result_id ∈ finalOutstanding tRs responses →
        ∃ p ∈ resultsFor (waitForResults tRs responses) tr.public_id, isTimedOut p = true) := by
  have hinv := pollLoop_inv tRs hnd responses (tRs.map (fun tr => tr.result_id)) []
    (by intro pr hpr; simp at hpr)
    (by intro tr htr; exact Or.inl (List.mem_map_of_mem _ htr))
  constructor
  · intro pid
    constructor
    · intro hmem
      unfold waitForResults mapKeys at hmem
      rw [List.map_append] at hmem
      rcases List.mem_append.mp hmem with h | h
      · rcases List.mem_map.mp h with ⟨pr, hpr, hfst⟩
        rw [← hfst]
        exact hinv.1 pr hpr
      · rcases List.mem_map.mp h with ⟨pr, hpr, hfst⟩
        rcases List.mem_filterMap.mp hpr with ⟨rid, _, hmapeq⟩
        rcases Option.map_eq_some'.mp hmapeq with ⟨pid0, how, hpair⟩
        rw [← hfst, ← hpair]
        exact ownerOf_some_mem tRs rid pid0 how
    · intro hmem
      rcases List.mem_map.mp hmem with ⟨tr, htr, hpid⟩
      rcases hinv.2 tr htr with h | h
      · have how := ownerOf_eq_of_nodup tRs hnd tr htr
        unfold waitForResults mapKeys
        rw [List.map_append]
        refine List.mem_append_right _ ?_
        have hpair : (tr.public_id, timedOutPollResult tr.result_id) ∈
            (pollLoop tRs responses (tRs.map (fun tr => tr.result_id)) []).1.filterMap
              (fun rid => (ownerOf tRs rid).map (fun pid => (pid, timedOutPollResult rid))) :=
          List.mem_filterMap.mpr ⟨tr.result_id, h, by rw [how]; rfl⟩
        rw [← hpid]
        exact List.mem_map_of_mem _ hpair
      · unfold waitForResults mapKeys
        rw [List.map_append]
        refine List.mem_append_left _ ?_
        rw [← hpid]
        exact h
  · intro tr htr hout
    have how := ownerOf_eq_of_nodup tRs hnd tr htr
    unfold finalOutstanding at hout
    have hpairT : (tr.public_id, timedOutPollResult tr.result_id) ∈
        waitForResults tRs responses := by
      unfold waitForResults
      refine List.mem_append_right _
        (List.mem_filterMap.mpr ⟨tr.result_id, ?_, by rw [how]; rfl⟩)
      exact hout
    refine ⟨timedOutPollResult tr.result_id, ?_, rfl⟩
    unfold resultsFor
    exact List.mem_map_of_mem Prod.snd (List.mem_filter.mpr ⟨hpairT, by simp⟩)

/-- C9 witness: a one-test run with no responses times out and still keys
the map by the triggered public id. -/
theorem waitForResults_keys_witness :
    "aaa-aaa-aaa" ∈ mapKeys (waitForResults [demoTriggerResult] []) :=
  ((waitForResults_keys [demoTriggerResult] [] (by decide)).1 "aaa-aaa-aaa").mpr (by decide)
